import Mathlib

/-!
Verification of the guppybot daemon's protocol and orchestration engine.

The definitions below are shallow embeddings of the corresponding Rust
functions in `guppybot/src/daemon.rs`, `tooling/src/registry.rs`,
`tooling/src/docker.rs` and `tooling/src/state.rs`.  Byte strings are
modelled as `List Nat`, fallible operations return `Except`, and external
effects (disk writes, container builds) are threaded as explicit oracle
parameters recording their success or failure.
-/

namespace Guppy

/-- Acknowledgement type from `tooling/src/ipc.rs` (`enum Ack<T>`). -/
inductive Ack (T : Type) where
  | Done (value : T)
  | Pending
  | Stopped
  deriving DecidableEq, Repr

/-- The `Ctl2Bot::_AckRetryApiAuth` arm of `Context::runloop` (daemon.rs):
the poll reply computed from the session flag pair `(auth_maybe, auth)`.
The Rust match is `(true,true) => Done(())`, `(false,false) | (true,false)
=> Pending`, `_ => Stopped`. -/
def ackRetryApiAuth (auth_maybe auth : Bool) : Ack Unit :=
  match auth_maybe, auth with
  | true, true => Ack.Done ()
  | false, false => Ack.Pending
  | true, false => Ack.Pending
  | false, true => Ack.Stopped

/-- The `Ctl2Bot::AckRegisterMachine` arm of `Context::runloop` (daemon.rs):
identical match over `(machine_reg_maybe, machine_reg)`. -/
def ackRegisterMachine (machine_reg_maybe machine_reg : Bool) : Ack Unit :=
  match machine_reg_maybe, machine_reg with
  | true, true => Ack.Done ()
  | false, false => Ack.Pending
  | true, false => Ack.Pending
  | false, true => Ack.Stopped

/-- The auth-side state touched by the `Registry2BotV0::Auth` handler: the
session flags, the in-memory root-manifest bit, and the bit last durably
written to disk. -/
structure AuthSt where
  auth_maybe : Bool
  auth : Bool
  auth_bit : Bool
  disk_auth_bit : Bool
  deriving DecidableEq, Repr

/-- `RootManifest::set_auth_bit` (state.rs): assigns the in-memory bit first,
then attempts `write_flag_bits`; `w` says whether that disk write succeeds.
Returns the updated state and whether the call returned `Ok`. -/
def setAuthBit (s : AuthSt) (bit : Bool) (w : Bool) : AuthSt × Bool :=
  let s := { s with auth_bit := bit }
  if w then ({ s with disk_auth_bit := bit }, true) else (s, false)

/-- The `Registry2BotV0::Auth(Some(_))` arm of `Context::runloop` (daemon.rs).
`w0` and `w1` are the outcomes of the first and second disk write, when
attempted.  If `auth_maybe` is unset the handler clears `auth` and persists
a cleared bit; otherwise it persists the set bit (unless already set) and
only then sets `auth`. -/
def authSomeHandler (w0 w1 : Bool) (s : AuthSt) : AuthSt :=
  if !s.auth_maybe then
    let s := { s with auth := false }
    (setAuthBit s false w0).1
  else if !s.auth_bit then
    match setAuthBit s true w0 with
    | (s, true) => { s with auth := true }
    | (s, false) =>
      let s := { s with auth := false }
      (setAuthBit s false w1).1
  else
    { s with auth := true }

/-- The machine-registration-side state touched by the
`Registry2BotV0::RegisterMachine` handler. -/
structure RegSt where
  machine_reg_maybe : Bool
  machine_reg : Bool
  mach_reg_bit : Bool
  disk_mach_reg_bit : Bool
  deriving DecidableEq, Repr

/-- `RootManifest::set_mach_reg_bit` (state.rs), modelled like `setAuthBit`. -/
def setMachRegBit (s : RegSt) (bit : Bool) (w : Bool) : RegSt × Bool :=
  let s := { s with mach_reg_bit := bit }
  if w then ({ s with disk_mach_reg_bit := bit }, true) else (s, false)

/-- The `Registry2BotV0::RegisterMachine(Some(_))` arm of `Context::runloop`
(daemon.rs), identical in shape to `authSomeHandler`. -/
def registerMachineSomeHandler (w0 w1 : Bool) (s : RegSt) : RegSt :=
  if !s.machine_reg_maybe then
    let s := { s with machine_reg := false }
    (setMachRegBit s false w0).1
  else if !s.mach_reg_bit then
    match setMachRegBit s true w0 with
    | (s, true) => { s with machine_reg := true }
    | (s, false) =>
      let s := { s with machine_reg := false }
      (setMachRegBit s false w1).1
  else
    { s with machine_reg := true }

/-- Persisted root manifest (state.rs): 32-byte secret key plus two flags. -/
structure RootManifest where
  root_key_buf : List Nat
  auth_bit : Bool
  mach_reg_bit : Bool
  deriving DecidableEq, Repr

/-- `RootManifest::parse` (state.rs): `read_exact` of 32 key bytes (failing on
a shorter stream), then `read_u8().ok().unwrap_or(0)` for the flag byte; bit 0
is `auth_bit` and bit 1 is `mach_reg_bit`. -/
def RootManifest.parse (input : List Nat) : Except String RootManifest :=
  if input.length < 32 then Except.error ("failed to read root manifest")
  else
    let flag_bits := (input.drop 32).headD 0
    Except.ok { root_key_buf := input.take 32,
                auth_bit := flag_bits &&& 1 == 1,
                mach_reg_bit := flag_bits &&& 2 == 2 }

/-- Toolchain identity (state.rs `enum Toolchain`). -/
inductive Toolchain where
  | Builtin
  | Default
  | Python2
  | Python3
  | RustNightly
  deriving DecidableEq, Repr

/-- Distro family (`DistroIdV0` from the external `schemas` crate). -/
inductive DistroId where
  | Alpine
  | Centos
  | Debian
  | Ubuntu
  deriving DecidableEq, Repr

/-- Distro codename (`DistroCodenameV0` from the external `schemas` crate). -/
inductive DistroCodename where
  | Alpine3_8
  | Alpine3_9
  | Centos6
  | Centos7
  | DebianWheezy
  | DebianJessie
  | DebianStretch
  | DebianBuster
  | UbuntuTrusty
  | UbuntuXenial
  | UbuntuBionic
  deriving DecidableEq, Repr

/-- CUDA version (`CudaVersionV0` from the external `schemas` crate). -/
structure CudaVersion where
  major : Nat
  minor : Nat
  deriving DecidableEq, Repr

/-- Version comparator for task requirements (docker.rs `enum Version`). -/
inductive Version where
  | Exact
  | AtLeast
  | Any
  deriving DecidableEq, Repr

/-- Maps a distro codename to its distro family; models
`DistroCodenameV0::to_id` from the external `schemas` crate (each codename
belongs to the evident family). -/
def DistroCodename.to_id : DistroCodename → DistroId
  | .Alpine3_8 | .Alpine3_9 => .Alpine
  | .Centos6 | .Centos7 => .Centos
  | .DebianWheezy | .DebianJessie | .DebianStretch | .DebianBuster => .Debian
  | .UbuntuTrusty | .UbuntuXenial | .UbuntuBionic => .Ubuntu

/-- Container-image descriptor (state.rs `struct ImageSpec`); equality is
field-wise, as with the derived Rust `PartialEq`. -/
structure ImageSpec where
  cuda : Option CudaVersion
  distro_codename : DistroCodename
  distro_id : DistroId
  docker : Bool
  nvidia_docker : Bool
  toolchain : Option Toolchain
  deriving DecidableEq, Repr

/-- One parsed unit of CI work (docker.rs `struct TaskSpec`). -/
structure TaskSpec where
  name : String
  toolchain : Option Toolchain
  require_docker : Bool
  require_nvidia_docker : Bool
  require_distro : Version × DistroCodename
  require_cuda : Option (Version × Option CudaVersion)
  allow_errors : Bool
  sh : List String
  deriving DecidableEq, Repr

/-- `TaskSpec::image_candidate` (docker.rs).  No candidate without
`require_docker`; the inner cuda match returns `none` for the whole function
on the unmatched comparator/version combinations. -/
def TaskSpec.image_candidate (t : TaskSpec) : Option ImageSpec :=
  if !t.require_docker then none
  else
    let cuda? : Option (Option CudaVersion) :=
      match t.require_cuda with
      | none => some none
      | some (ver, v) =>
        match ver, v with
        | Version.Exact, some v => some (some v)
        | Version.AtLeast, some v => some (some v)
        | Version.Any, none => some (some ⟨10, 0⟩)
        | _, _ => none
    match cuda? with
    | none => none
    | some cuda =>
      some { cuda := cuda,
             distro_codename := t.require_distro.2,
             distro_id := t.require_distro.2.to_id,
             docker := t.require_docker,
             nvidia_docker := t.require_nvidia_docker,
             toolchain := t.toolchain }

/-- The consumer-thread loop of `ConsoleMonitor::serialize_to_buffer`
(docker.rs), folded over the merged arrival-ordered sequence of lines
received from the stdout and stderr reader threads (each line as raw bytes,
newline excluded).  Returns the `(part_nr, chunk)` pairs handed to the
consumer callback, in call order. -/
def chunkLoop (buf_sz : Nat) : List (List Nat) → List Nat → Nat → Nat → List (Nat × List Nat)
  | [], buf, occ_sz, part_nr =>
    if occ_sz > 0 then [(part_nr, buf)] else []
  | line :: rest, buf, occ_sz, part_nr =>
    let buf' := buf ++ line ++ [10]
    let occ' := occ_sz + line.length + 1
    if occ' ≥ buf_sz then (part_nr, buf') :: chunkLoop buf_sz rest [] 0 (part_nr + 1)
    else chunkLoop buf_sz rest buf' occ' part_nr

/-- `ConsoleMonitor::serialize_to_buffer` (docker.rs): the buffer starts
empty with `part_nr = 1`. -/
def serialize_to_buffer (buf_sz : Nat) (lines : List (List Nat)) : List (Nat × List Nat) :=
  chunkLoop buf_sz lines [] 0 1

/-- A task requiring no docker (witness input for the image-candidate claim). -/
def taskNoDocker : TaskSpec :=
  { name := "a", toolchain := none, require_docker := false,
    require_nvidia_docker := false,
    require_distro := (Version.Exact, DistroCodename.DebianStretch),
    require_cuda := none, allow_errors := false, sh := [] }

/-- A docker task with the wildcard cuda requirement (witness input). -/
def taskCudaAny : TaskSpec :=
  { taskNoDocker with
    require_docker := true
    require_cuda := some (Version.Any, none) }

/-- A docker task with an exact cuda requirement (witness input). -/
def taskCudaExact : TaskSpec :=
  { taskNoDocker with
    require_docker := true
    require_cuda := some (Version.Exact, some ⟨9, 2⟩) }

/-- A docker task with an at-least cuda requirement (witness input). -/
def taskCudaAtLeast : TaskSpec :=
  { taskNoDocker with
    require_docker := true
    require_cuda := some (Version.AtLeast, some ⟨8, 0⟩) }

/-- Outcome of a fallible Rust routine: either an `Err(fail(msg))` return
value, or a Rust panic (index out of bounds, `unwrap` on `None`/`Err`, an
explicit panic or a failed assertion). -/
inductive PErr where
  | fail (msg : String)
  | panicked
  deriving DecidableEq, Repr

/-- Little-endian 4-byte encoding of a `u32`
(byteorder `write_u32::<LittleEndian>`). -/
def u32le (n : Nat) : List Nat :=
  [n % 256, n / 256 % 256, n / 65536 % 256, n / 16777216 % 256]

/-- Little-endian decoding of a 4-byte slice
(byteorder `read_u32::<LittleEndian>`). -/
def u32leDecode (b : List Nat) : Nat :=
  b.getD 0 0 + 256 * b.getD 1 0 + 65536 * b.getD 2 0 + 16777216 * b.getD 3 0

/-- `RegistryChannel::send` (registry.rs) and the identical framing of
`BotWsSender::send_auth` (daemon.rs): the frame is
`[32-byte signature][4-byte little-endian payload length][payload]`, with the
signature computed over bytes `[32..]` under the secret token.  `mac` models
the keyed message-authentication primitive (`auth_sign` writes a 32-byte tag
of the signed bytes under the key, failing if the tag buffer cannot be
filled); `ser` is the external serialization collaborator
(`bincode` / `schemas`).  A payload length above `u32::MAX` trips the Rust
assertion, i.e. panics. -/
def encodeFrame {M : Type} (mac : List Nat → List Nat → List Nat)
    (ser : M → List Nat) (key : List Nat) (msg : M) : Except PErr (List Nat) :=
  if (ser msg).length ≤ 4294967295 then
    if (mac key (u32le (ser msg).length ++ ser msg)).length = 32 then
      Except.ok (mac key (u32le (ser msg).length ++ ser msg) ++
        (u32le (ser msg).length ++ ser msg))
    else Except.error (PErr.fail ("API message signing failure"))
  else Except.error PErr.panicked

/-- `RegistryChannel::recv` (registry.rs) and the identical checks of
`BotWsSender::recv_auth` (daemon.rs): reject frames shorter than 36 bytes,
verify the signature over bytes `[32..]` (`auth_verify` recomputes the tag
and compares), check the declared length against the actual remaining bytes,
then deserialize the payload with the external collaborator `deser`. -/
def decodeFrame {M : Type} (mac : List Nat → List Nat → List Nat)
    (deser : List Nat → Option M) (key : List Nat) (bin : List Nat) :
    Except PErr M :=
  if bin.length < 36 then Except.error (PErr.fail ("API message protocol failure"))
  else if mac key (bin.drop 32) ≠ bin.take 32 then
    Except.error (PErr.fail ("API message verification failure"))
  else if u32leDecode ((bin.drop 32).take 4) ≠ (bin.drop 36).length then
    Except.error (PErr.fail ("API message self-consistency failure"))
  else
    match deser (bin.drop 36) with
    | some msg => Except.ok msg
    | none => Except.error (PErr.fail ("API message deserialization failure"))

/-- The reconnect/backoff record shared between the connection thread and
the watchdog thread (daemon.rs `struct Reconnect`).  The `f64` delay fields
are modelled as rationals: every value they take is a small dyadic number
(7.5 and 15, doubled and capped at 1500 and 2100), on which `f64`
arithmetic (doubling, `min`) is exact.  `open` is a Lean keyword, so the
flag is named `open_flag`. -/
structure Reconnect where
  min_backoff_delay_lo : ℚ
  min_backoff_delay_hi : ℚ
  max_backoff_delay_lo : ℚ
  max_backoff_delay_hi : ℚ
  open_flag : Bool
  backoff_count : ℤ
  backoff_delay_lo : ℚ
  backoff_delay_hi : ℚ
  deriving DecidableEq, Repr

/-- `BotWsConn::on_open` (daemon.rs): a successful open marks the record
open and resets the attempt counter to zero. -/
def onOpen (r : Reconnect) : Reconnect :=
  { r with
    open_flag := true
    backoff_count := 0 }

/-- `BotWsConn::on_close` / `on_error` / `on_shutdown` (daemon.rs): every
transport hangup marks the record closed. -/
def onWsHup (r : Reconnect) : Reconnect :=
  { r with open_flag := false }

/-- The watchdog thread's `WatchdogMsg::_WsHup` arm (daemon.rs): a
notification arriving while the connection has already reopened is ignored;
otherwise the first failure (`backoff_count = 0`) loads the minimum
interval, every later failure doubles both bounds capped at the maxima, and
the attempt counter is incremented. -/
def watchdogStep (r : Reconnect) : Reconnect :=
  if r.open_flag then r
  else if r.backoff_count = 0 then
    { r with
      backoff_delay_lo := r.min_backoff_delay_lo
      backoff_delay_hi := r.min_backoff_delay_hi
      backoff_count := r.backoff_count + 1 }
  else
    { r with
      backoff_delay_lo := min r.max_backoff_delay_lo (2 * r.backoff_delay_lo)
      backoff_delay_hi := min r.max_backoff_delay_hi (2 * r.backoff_delay_hi)
      backoff_count := r.backoff_count + 1 }

/-- The reconnect record as initialized in `Context::new` (daemon.rs). -/
def initReconnect : Reconnect :=
  { min_backoff_delay_lo := 7.5
    min_backoff_delay_hi := 15
    max_backoff_delay_lo := 1800 - 300
    max_backoff_delay_hi := 1800 + 300
    open_flag := false
    backoff_count := 0
    backoff_delay_lo := 0
    backoff_delay_hi := 0 }

/-- The record after `n` consecutive watchdog-handled failures. -/
def watchdogIter (r : Reconnect) : Nat → Reconnect
  | 0 => r
  | n + 1 => watchdogStep (watchdogIter r n)

/-- Handle to a built container image (docker.rs `struct DockerImage`). -/
structure DockerImage where
  imagespec : ImageSpec
  hash_digest : String
  deriving DecidableEq, Repr

/-- `ImageManifest::lookup_docker_image` (state.rs): scan the manifest's
entries in order for one equal to the looked-up spec; on a hit return a
handle for the stored entry, with no further work.  On a miss, build the
image (`DockerImage::_build`, an external `docker build` subprocess whose
success is the oracle `buildOk`), push the spec onto the manifest, then
persist the manifest (`dump`, success oracle `dumpOk`).  `hash` models
`ImageSpec::to_hash_digest` (a keyed hash of the spec's canonical
description under the root manifest's secret key).  Returns the call
result, the updated in-memory manifest, and whether a build was attempted. -/
def lookup_docker_image (hash : ImageSpec → String) (buildOk dumpOk : Bool)
    (m : List ImageSpec) (lookup_image : ImageSpec) :
    Except String DockerImage × List ImageSpec × Bool :=
  match m.find? (fun image => image == lookup_image) with
  | some image =>
    (Except.ok { imagespec := image, hash_digest := hash image }, m, false)
  | none =>
    if buildOk then
      if dumpOk then
        (Except.ok { imagespec := lookup_image, hash_digest := hash lookup_image },
         m ++ [lookup_image], true)
      else
        (Except.error ("failed to write image manifest"), m ++ [lookup_image], true)
    else
      (Except.error ("failed to open Dockerfile template"), m, true)

/-- `ImageSpec::builtin_default` (state.rs). -/
def ImageSpec.builtin_default : ImageSpec :=
  { cuda := none
    distro_codename := DistroCodename.Alpine3_8
    distro_id := DistroId.Alpine
    docker := true
    nvidia_docker := false
    toolchain := some Toolchain.Builtin }

/-- The image spec that `image_candidate` yields for a docker-requiring task
once the cuda field has been resolved to `c`. -/
def candidateOf (t : TaskSpec) (c : Option CudaVersion) : ImageSpec :=
  { cuda := c
    distro_codename := t.require_distro.2
    distro_id := t.require_distro.2.to_id
    docker := true
    nvidia_docker := t.require_nvidia_docker
    toolchain := t.toolchain }

/-- Splits a character list at the first occurrence of the (nonempty)
pattern, returning the part before it and the part after it, or `none` when
the pattern does not occur. -/
def splitFirstAux (pat : List Char) : List Char → Option (List Char × List Char)
  | [] => none
  | c :: cs =>
    if pat.isPrefixOf (c :: cs) then some ([], (c :: cs).drop pat.length)
    else
      match splitFirstAux pat cs with
      | none => none
      | some (bef, aft) => some (c :: bef, aft)

/-- Rust `str::splitn(2, pat)`: the part before the first occurrence of the
pattern and the remainder after it, or the whole string when the pattern is
absent. -/
def splitn2 (pat s : String) : List String :=
  match splitFirstAux pat.data s.data with
  | none => [s]
  | some (bef, aft) => [String.mk bef, String.mk aft]

/-- Worker for `splitWS`: `cur` is the current token, reversed. -/
def splitWSGo (cur : List Char) : List Char → List (List Char)
  | [] => if cur.isEmpty then [] else [cur.reverse]
  | c :: cs =>
    if c.isWhitespace then
      if cur.isEmpty then splitWSGo [] cs
      else cur.reverse :: splitWSGo [] cs
    else splitWSGo (c :: cur) cs

/-- Rust `str::split_whitespace`: maximal whitespace-free tokens, in order. -/
def splitWS (s : String) : List String :=
  (splitWSGo [] s.data).map String.mk

/-- Rust `str::starts_with`. -/
def strStartsWith (s pat : String) : Bool :=
  pat.data.isPrefixOf s.data

/-- Splits a character list on a separator character, keeping empty
segments (the shape of Rust path-component splitting before
normalization). -/
def splitCharGo (sep : Char) (cur : List Char) : List Char → List (List Char)
  | [] => [cur.reverse]
  | c :: cs =>
    if c = sep then cur.reverse :: splitCharGo sep [] cs
    else splitCharGo sep (c :: cur) cs

/-- Whether every component of the path is a `Component::Normal`
(the `v0.mutable_cache:append` path check in docker.rs): a leading `/`
(root), any `..` component, or a leading `.` component is rejected;
repeated separators and interior `.` segments are normalized away by Rust's
`Path::components` and never yield components. -/
def pathComponentsNormal (p : String) : Bool :=
  match p.data with
  | '/' :: _ => false
  | _ =>
    match (splitCharGo '/' [] p.data).filter (fun t => !t.isEmpty) with
    | [] => true
    | s0 :: rest =>
      !(s0 = ['.'] : Bool) && ((s0 :: rest).all (fun t => !(t = ['.', '.'] : Bool)))

/-- Rust `str::parse::<bool>()`. -/
def parseBool : String → Option Bool
  | "true" => some true
  | "false" => some false
  | _ => none

/-- State 1 of the name-scanning loop in the `v0.task name` arm of
`_taskspecs` (docker.rs): skip whitespace; stop at the first
non-whitespace character.  Exhausting the text first makes the Rust loop's
`unwrap` panic, modelled as `none`. -/
def nameScanWs : List Char → Option (List Char)
  | [] => none
  | c :: cs => if c.isWhitespace then nameScanWs cs else some (c :: cs)

/-- State 0 of the name-scanning loop: skip up to the first whitespace
character, then switch to state 1. -/
def nameScanTok : List Char → Option (List Char)
  | [] => none
  | c :: cs => if c.isWhitespace then nameScanWs cs else nameScanTok cs

/-- `Toolchain::from_desc_str_nocustom` (state.rs). -/
def Toolchain.from_desc_str_nocustom : String → Option Toolchain
  | "_builtin" => some Toolchain.Builtin
  | "default" => some Toolchain.Default
  | "python2" => some Toolchain.Python2
  | "python3" => some Toolchain.Python3
  | "rust_nightly" => some Toolchain.RustNightly
  | _ => none

/-- `Toolchain::from_desc_str_no_builtin` (state.rs). -/
def Toolchain.from_desc_str_no_builtin (s : String) : Option Toolchain :=
  match Toolchain.from_desc_str_nocustom s with
  | some Toolchain.Builtin | none => none
  | some t => some t

/-- The distro-id table of the `require_distro` arm (docker.rs). -/
def parseDistroId : String → Option DistroId
  | "alpine" => some DistroId.Alpine
  | "centos" => some DistroId.Centos
  | "debian" => some DistroId.Debian
  | "ubuntu" => some DistroId.Ubuntu
  | _ => none

/-- The `(distro, version-or-codename)` table of the `require_distro` arm
(docker.rs). -/
def parseDistroCodename : DistroId → String → Option DistroCodename
  | DistroId.Alpine, "3.8" => some DistroCodename.Alpine3_8
  | DistroId.Alpine, "3.9" => some DistroCodename.Alpine3_9
  | DistroId.Centos, "6" => some DistroCodename.Centos6
  | DistroId.Centos, "7" => some DistroCodename.Centos7
  | DistroId.Debian, "wheezy" => some DistroCodename.DebianWheezy
  | DistroId.Debian, "7" => some DistroCodename.DebianWheezy
  | DistroId.Debian, "8" => some DistroCodename.DebianJessie
  | DistroId.Debian, "jessie" => some DistroCodename.DebianJessie
  | DistroId.Debian, "9" => some DistroCodename.DebianStretch
  | DistroId.Debian, "stretch" => some DistroCodename.DebianStretch
  | DistroId.Debian, "10" => some DistroCodename.DebianBuster
  | DistroId.Debian, "buster" => some DistroCodename.DebianBuster
  | DistroId.Ubuntu, "14.04" => some DistroCodename.UbuntuTrusty
  | DistroId.Ubuntu, "trusty" => some DistroCodename.UbuntuTrusty
  | DistroId.Ubuntu, "16.04" => some DistroCodename.UbuntuXenial
  | DistroId.Ubuntu, "xenial" => some DistroCodename.UbuntuXenial
  | DistroId.Ubuntu, "18.04" => some DistroCodename.UbuntuBionic
  | DistroId.Ubuntu, "bionic" => some DistroCodename.UbuntuBionic
  | _, _ => none

/-- The cuda-version table of the `require_cuda` arm (docker.rs). -/
def parseCudaVersion : String → Option CudaVersion
  | "6.5" => some ⟨6, 5⟩
  | "7.0" => some ⟨7, 0⟩
  | "7.5" => some ⟨7, 5⟩
  | "8.0" => some ⟨8, 0⟩
  | "9.0" => some ⟨9, 0⟩
  | "9.1" => some ⟨9, 1⟩
  | "9.2" => some ⟨9, 2⟩
  | "10.0" => some ⟨10, 0⟩
  | "10.1" => some ⟨10, 1⟩
  | _ => none

/-- docker.rs `struct TaskSpecBuilder` (all fields defaulted, as with the
Rust `Default` derive). -/
structure TaskSpecBuilder where
  name : String := ""
  toolchain : Option Toolchain := none
  require_docker : Bool := false
  require_nvidia_docker : Bool := false
  require_distro : Option (Version × DistroCodename) := none
  require_cuda : Option (Version × Option CudaVersion) := none
  require_gpu_arch : Option Unit := none
  allow_errors : Bool := false
  sh : List String := []
  deriving DecidableEq, Repr

/-- `TaskSpecBuilder::into_task` (docker.rs): fails when no distro
requirement was given. -/
def TaskSpecBuilder.into_task (b : TaskSpecBuilder) : Except PErr TaskSpec :=
  match b.require_distro with
  | none => Except.error (PErr.fail ("missing require_distro"))
  | some rd =>
    Except.ok { name := b.name
                toolchain := b.toolchain
                require_docker := b.require_docker
                require_nvidia_docker := b.require_nvidia_docker
                require_distro := rd
                require_cuda := b.require_cuda
                allow_errors := b.allow_errors
                sh := b.sh }

/-- Outcome of the external file/network effects of a
`v0.mutable_cache:append <path> fetch_only <url>` directive: the file
already exists or the download completes (`ok`), the destination file
cannot be created (`err`), or the transfer write fails, which the Rust
code turns into a panic (`panicked`). -/
inductive McEff where
  | ok
  | err
  | panicked
  deriving DecidableEq, Repr

/-- The fold state of `_taskspecs` (docker.rs): the open task builder, if
any, and the finished tasks so far. -/
structure PState where
  builder : Option TaskSpecBuilder
  tasks : List TaskSpec
  deriving DecidableEq, Repr

/-- The non-directive branch of `_taskspecs` (docker.rs): a shell line is
appended verbatim to the open builder, and is a syntax error when no
builder is open. -/
def procShell (st : PState) (line : String) : Except PErr PState :=
  match st.builder with
  | none => Except.error (PErr.fail ("gup.py syntax error"))
  | some b => Except.ok { st with builder := some { b with sh := b.sh ++ [line] } }

/-- The `v0.mutable_cache` arm of `_taskspecs` (docker.rs).  An empty token
list makes the Rust `cache_toks[0]` index panic; only `append` is accepted;
the path must consist of normal components; `fetch_only` requires a url and
performs external effects whose outcome is the oracle `env`; other modes
are no-ops. -/
def procMutableCache (env : String → String → McEff) (st : PState)
    (args : String) : Except PErr PState :=
  match splitWS args with
  | [] => Except.error PErr.panicked
  | tok0 :: toks =>
    if tok0 = "append" then
      match toks with
      | t1 :: t2 :: rest =>
        if !pathComponentsNormal t1 then
          Except.error (PErr.fail ("gup.py: v0.mutable_cache:append: invalid path"))
        else if t2 = "fetch_only" then
          match rest with
          | [] =>
            Except.error
              (PErr.fail ("gup.py: v0.mutable_cache:append: fetch_only missing url argument"))
          | url :: _ =>
            match env t1 url with
            | McEff.ok => Except.ok st
            | McEff.err =>
              Except.error
                (PErr.fail ("gup.py: v0.mutable_cache:append: failed to open new file"))
            | McEff.panicked => Except.error PErr.panicked
        else Except.ok st
      | _ =>
        Except.error
          (PErr.fail ("gup.py: v0.mutable_cache:append takes at least 2 arguments"))
    else Except.error (PErr.fail ("gup.py syntax error"))

/-- The `v0.task` directive arms of `_taskspecs` (docker.rs), dispatching on
the first whitespace-separated token of the directive arguments (`args` is
the full argument text, needed by the `name` arm's character scan). -/
def procTaskDirective (st : PState) (args : String) (tok0 : String)
    (toks : List String) : Except PErr PState :=
  if tok0 = "begin" then
    match st.builder with
    | some _ => Except.error (PErr.fail ("gup.py syntax error"))
    | none => Except.ok { st with builder := some {} }
  else if tok0 = "end" then
    match st.builder with
    | none => Except.error (PErr.fail ("gup.py syntax error"))
    | some b =>
      match b.into_task with
      | Except.error e => Except.error e
      | Except.ok t => Except.ok { builder := none, tasks := st.tasks ++ [t] }
  else if tok0 = "name" then
    match st.builder with
    | none => Except.error (PErr.fail ("gup.py syntax error"))
    | some b =>
      if toks.isEmpty then Except.error (PErr.fail ("v0.task:name takes 1 argument"))
      else
        match nameScanTok args.data with
        | none => Except.error PErr.panicked
        | some tail =>
          Except.ok { st with builder := some { b with name := String.mk tail } }
  else if tok0 = "toolchain" then
    match st.builder with
    | none => Except.error (PErr.fail ("gup.py syntax error"))
    | some b =>
      match toks with
      | [] => Except.error (PErr.fail ("v0.task:toolchain takes 1 argument"))
      | t1 :: _ =>
        match Toolchain.from_desc_str_no_builtin t1 with
        | none => Except.error (PErr.fail ("v0.task: unsupported toolchain"))
        | some tc =>
          Except.ok { st with builder := some { b with toolchain := some tc } }
  else if tok0 = "require_docker" then
    match st.builder with
    | none => Except.error (PErr.fail ("gup.py syntax error"))
    | some b =>
      match toks with
      | [] => Except.error (PErr.fail ("v0.task:require_docker takes 1 argument"))
      | t1 :: _ =>
        match parseBool t1 with
        | none => Except.error (PErr.fail ("v0.task:require_docker takes boolean argument"))
        | some v =>
          Except.ok { st with builder := some { b with require_docker := v } }
  else if tok0 = "require_nvidia_docker" then
    match st.builder with
    | none => Except.error (PErr.fail ("gup.py syntax error"))
    | some b =>
      match toks with
      | [] => Except.error (PErr.fail ("v0.task:require_nvidia_docker takes 1 argument"))
      | t1 :: _ =>
        match parseBool t1 with
        | none =>
          Except.error (PErr.fail ("v0.task:require_nvidia_docker takes boolean argument"))
        | some v =>
          Except.ok { st with builder := some { b with require_nvidia_docker := v } }
  else if tok0 = "require_distro" then
    match st.builder with
    | none => Except.error (PErr.fail ("gup.py syntax error"))
    | some b =>
      match toks with
      | t1 :: t2 :: _ =>
        match parseDistroId t1 with
        | none => Except.error (PErr.fail ("v0.task: unsupported distro"))
        | some did =>
          match parseDistroCodename did
              (if strStartsWith t2 ("==") then
                (splitn2 ("==") t2).getD 1 ("")
              else if strStartsWith t2 (">=") then
                (splitn2 (">=") t2).getD 1 ("")
              else t2) with
          | none => Except.error (PErr.fail ("v0.task: unsupported distro version"))
          | some code =>
            Except.ok { st with builder := some { b with
              require_distro := some
                ((if strStartsWith t2 ("==") then Version.Exact
                  else if strStartsWith t2 (">=") then Version.AtLeast
                  else Version.Exact), code) } }
      | _ => Except.error (PErr.fail ("v0.task:require_distro takes 2 arguments"))
  else if tok0 = "require_cuda" then
    match st.builder with
    | none => Except.error (PErr.fail ("gup.py syntax error"))
    | some b =>
      match toks with
      | [] => Except.error (PErr.fail ("v0.task:require_cuda takes 1 argument"))
      | t1 :: _ =>
        if t1 = "*" then
          Except.ok { st with builder := some { b with
            require_cuda := some (Version.Any, none) } }
        else
          match parseCudaVersion
              (if strStartsWith t1 ("==") then
                (splitn2 ("==") t1).getD 1 ("")
              else if strStartsWith t1 (">=") then
                (splitn2 (">=") t1).getD 1 ("")
              else t1) with
          | none => Except.error (PErr.fail ("v0.task: unsupported cuda version"))
          | some v =>
            Except.ok { st with builder := some { b with
              require_cuda := some
                ((if strStartsWith t1 ("==") then Version.Exact
                  else if strStartsWith t1 (">=") then Version.AtLeast
                  else Version.Exact), some v) } }
  else if tok0 = "require_gpu_arch" then
    match st.builder with
    | none => Except.error (PErr.fail ("gup.py syntax error"))
    | some _ =>
      match toks with
      | [] => Except.error (PErr.fail ("v0.task:require_gpu_arch takes 1 argument"))
      | t1 :: _ =>
        if t1 = "*" then Except.ok st
        else Except.error (PErr.fail ("gup.py syntax error"))
  else if tok0 = "allow_errors" then
    match st.builder with
    | none => Except.error (PErr.fail ("gup.py syntax error"))
    | some b =>
      match toks with
      | [] => Except.error (PErr.fail ("v0.task:allow_errors takes 1 argument"))
      | t1 :: _ =>
        match parseBool t1 with
        | none => Except.error (PErr.fail ("v0.task:allow_errors takes boolean argument"))
        | some v =>
          Except.ok { st with builder := some { b with allow_errors := v } }
  else Except.error (PErr.fail ("gup.py syntax error"))

/-- The `v0.task` arm of `_taskspecs`: tokenize the directive arguments (an
empty token list makes the Rust `task_toks[0]` index panic). -/
def procTask (st : PState) (args : String) : Except PErr PState :=
  match splitWS args with
  | [] => Except.error PErr.panicked
  | tok0 :: toks => procTaskDirective st args tok0 toks

/-- The directive dispatch of `_taskspecs` (docker.rs) over the directive
name and its argument text; a missing argument part (`directive_toks[1]`)
panics in the arms that index it, and an unversioned `task` directive
panics explicitly. -/
def procDirectiveArgs (env : String → String → McEff) (st : PState)
    (d : String) (args? : Option String) : Except PErr PState :=
  if d = "v0.mutable_cache" then
    match args? with
    | none => Except.error PErr.panicked
    | some args => procMutableCache env st args
  else if d = "v0.pre_run" ∨ d = "v0.run_prelude" then Except.ok st
  else if d = "v0.post_run" then Except.ok st
  else if d = "task" then Except.error PErr.panicked
  else if d = "v0.task" then
    match args? with
    | none => Except.error PErr.panicked
    | some args => procTask st args
  else Except.error (PErr.fail ("gup.py syntax error"))

/-- A directive line's text after the `#-guppy:` marker, split at the first
colon into the directive name and its arguments. -/
def procDirective (env : String → String → McEff) (st : PState)
    (rest : String) : Except PErr PState :=
  match splitn2 (":") rest with
  | [d] => procDirectiveArgs env st d none
  | [d, args] => procDirectiveArgs env st d (some args)
  | _ => Except.error PErr.panicked

/-- One line of `_taskspecs` (docker.rs): lines whose text before the first
`#-guppy:` marker is empty are directive lines; all others are shell
lines. -/
def procLine (env : String → String → McEff) (st : PState) (line : String) :
    Except PErr PState :=
  match splitn2 ("#-guppy:") line with
  | [pre, rest] =>
    if pre = "" then procDirective env st rest
    else procShell st line
  | _ => procShell st line

/-- The line fold of `_taskspecs`: errors abort the whole parse. -/
def procLines (env : String → String → McEff) : PState → List String →
    Except PErr PState
  | st, [] => Except.ok st
  | st, l :: ls =>
    match procLine env st l with
    | Except.error e => Except.error e
    | Except.ok st' => procLines env st' ls

/-- `_taskspecs` (docker.rs) over the decoded line sequence: the fold from
the empty state, with a still-open builder at end of stream a syntax
error.  The result is all-or-nothing: an `Except.error` carries no partial
task list. -/
def taskspecs (env : String → String → McEff) (lines : List String) :
    Except PErr (List TaskSpec) :=
  match procLines env { builder := none, tasks := [] } lines with
  | Except.error e => Except.error e
  | Except.ok st =>
    if st.builder.isSome then Except.error (PErr.fail ("gup.py syntax error"))
    else Except.ok st.tasks

/-- Whether a line is a non-directive (shell) line: its text before the
first `#-guppy:` marker is nonempty, or the marker is absent. -/
def isShellLine (line : String) : Bool :=
  match splitn2 ("#-guppy:") line with
  | [pre, _] => !(pre == "")
  | _ => true

/-- The first token of a `v0.task` directive line's arguments, when the
line is a `v0.task` directive with an argument part. -/
def taskTok (line : String) : Option String :=
  match splitn2 ("#-guppy:") line with
  | [pre, rest] =>
    if pre = "" then
      match splitn2 (":") rest with
      | [d, args] => if d = "v0.task" then (splitWS args).head? else none
      | _ => none
    else none
  | _ => none

/-- The `v0.task` modifier directives: every arm that edits the open
builder. -/
def modifierToks : List String :=
  ["name", "toolchain", "require_docker", "require_nvidia_docker",
   "require_distro", "require_cuda", "require_gpu_arch", "allow_errors"]

end Guppy

namespace Guppy

/-- C1 counterexample: with `auth_maybe = true` and the confirmed flag still
false, the poll arm returns `Pending`, not `Stopped` as the claim states. -/
theorem ackRetryApiAuth_true_false_not_stopped :
    ackRetryApiAuth true false = Ack.Pending ∧
    ackRetryApiAuth true false ≠ Ack.Stopped := by
  decide

/-- C1 (amended): both poll arms return `Done` exactly when both flags are
true, `Stopped` exactly when the `_maybe` flag is false while the confirmed
flag is true, and `Pending` whenever the confirmed flag is false; in
particular neither arm ever returns `Done` when `_maybe` is false. -/
theorem ack_poll_characterization :
    (∀ am a, ackRetryApiAuth am a =
      (if am && a then Ack.Done () else if a then Ack.Stopped else Ack.Pending)) ∧
    (∀ mm m, ackRegisterMachine mm m =
      (if mm && m then Ack.Done () else if m then Ack.Stopped else Ack.Pending)) ∧
    (∀ a, ackRetryApiAuth false a ≠ Ack.Done ()) ∧
    (∀ m, ackRegisterMachine false m ≠ Ack.Done ()) := by
  decide

/-- C2 counterexample: a positive `Auth` confirmation arriving while
`auth_maybe` is false does not leave the state unchanged: starting from
`auth = true` with both bits set, the handler rewrites the state. -/
theorem authSomeHandler_stale_changes_state :
    authSomeHandler true true ⟨false, true, true, true⟩ ≠
      (⟨false, true, true, true⟩ : AuthSt) := by
  decide

/-- C2 (amended): when a positive confirmation arrives while the `_maybe`
flag is false, the handler clears the in-memory confirmed flag and the
in-memory persisted bit to false (persisting the cleared bit when the disk
write succeeds), for both the auth and machine-registration handlers. -/
theorem stale_positive_confirmation_clears (w0 w1 : Bool) (s : AuthSt) (t : RegSt)
    (ha : s.auth_maybe = false) (hm : t.machine_reg_maybe = false) :
    (authSomeHandler w0 w1 s).auth = false ∧
    (authSomeHandler w0 w1 s).auth_bit = false ∧
    (authSomeHandler w0 w1 s).disk_auth_bit =
      (if w0 then false else s.disk_auth_bit) ∧
    (registerMachineSomeHandler w0 w1 t).machine_reg = false ∧
    (registerMachineSomeHandler w0 w1 t).mach_reg_bit = false ∧
    (registerMachineSomeHandler w0 w1 t).disk_mach_reg_bit =
      (if w0 then false else t.disk_mach_reg_bit) := by
  cases w0 <;>
    simp [authSomeHandler, registerMachineSomeHandler, setAuthBit, setMachRegBit, ha, hm]

/-- Witness for the amended C2 theorem at a concrete state. -/
theorem stale_positive_confirmation_clears_witness :
    (authSomeHandler true true ⟨false, true, true, true⟩).auth = false ∧
    (authSomeHandler true true ⟨false, true, true, true⟩).auth_bit = false ∧
    (authSomeHandler true true ⟨false, true, true, true⟩).disk_auth_bit =
      (if true then false else true) ∧
    (registerMachineSomeHandler true true ⟨false, true, true, true⟩).machine_reg = false ∧
    (registerMachineSomeHandler true true ⟨false, true, true, true⟩).mach_reg_bit = false ∧
    (registerMachineSomeHandler true true ⟨false, true, true, true⟩).disk_mach_reg_bit =
      (if true then false else true) :=
  stale_positive_confirmation_clears true true ⟨false, true, true, true⟩
    ⟨false, true, true, true⟩ rfl rfl

/-- C10: parsing the root manifest succeeds on any input of at least 32
bytes; the first 32 bytes are the key, a missing flag byte yields cleared
flags, and a present flag byte yields its bit 0 as `auth_bit` and bit 1 as
`mach_reg_bit`. -/
theorem rootManifest_parse_succeeds (input : List Nat) (h : 32 ≤ input.length) :
    ∃ m, RootManifest.parse input = Except.ok m ∧
      m.root_key_buf = input.take 32 ∧
      (input.length = 32 → m.auth_bit = false ∧ m.mach_reg_bit = false) ∧
      (∀ b rest, input.drop 32 = b :: rest →
        m.auth_bit = (b &&& 1 == 1) ∧ m.mach_reg_bit = (b &&& 2 == 2)) := by
  have hne : ¬ input.length < 32 := by omega
  refine ⟨{ root_key_buf := input.take 32
            auth_bit := (input.drop 32).headD 0 &&& 1 == 1
            mach_reg_bit := (input.drop 32).headD 0 &&& 2 == 2 }, ?_, rfl, ?_, ?_⟩
  · unfold RootManifest.parse
    rw [if_neg hne]
  · intro hlen
    have hd : input.drop 32 = [] := by
      rw [← hlen]
      exact List.drop_length input
    rw [hd]
    exact ⟨rfl, rfl⟩
  · intro b rest hbr
    rw [hbr]
    exact ⟨rfl, rfl⟩

/-- Witness for the root-manifest parse theorem at concrete inputs. -/
theorem rootManifest_parse_succeeds_witness :
    ∃ m, RootManifest.parse (List.replicate 32 7) = Except.ok m ∧
      m.root_key_buf = (List.replicate 32 7).take 32 ∧
      ((List.replicate 32 7).length = 32 → m.auth_bit = false ∧ m.mach_reg_bit = false) ∧
      (∀ b rest, (List.replicate 32 7).drop 32 = b :: rest →
        m.auth_bit = (b &&& 1 == 1) ∧ m.mach_reg_bit = (b &&& 2 == 2)) :=
  rootManifest_parse_succeeds (List.replicate 32 7) (by decide)

/-- C9: the image candidate is a deterministic function of the task's
required fields: no candidate without `require_docker`; the wildcard cuda
requirement resolves to the fixed default version 10.0; exact and at-least
requirements with a concrete version use that version. -/
theorem image_candidate_from_required_fields (t : TaskSpec) :
    (t.require_docker = false → t.image_candidate = none) ∧
    (t.require_docker = true → t.require_cuda = some (Version.Any, none) →
      t.image_candidate = some (candidateOf t (some ⟨10, 0⟩))) ∧
    (∀ v, t.require_docker = true → t.require_cuda = some (Version.Exact, some v) →
      t.image_candidate = some (candidateOf t (some v))) ∧
    (∀ v, t.require_docker = true → t.require_cuda = some (Version.AtLeast, some v) →
      t.image_candidate = some (candidateOf t (some v))) := by
  refine ⟨?_, ?_, ?_, ?_⟩
  · intro h; simp [TaskSpec.image_candidate, h]
  · intro h hc; simp [TaskSpec.image_candidate, candidateOf, h, hc]
  · intro v h hc; simp [TaskSpec.image_candidate, candidateOf, h, hc]
  · intro v h hc; simp [TaskSpec.image_candidate, candidateOf, h, hc]

/-- Witness for the image-candidate theorem at concrete tasks. -/
theorem image_candidate_witness :
    taskNoDocker.image_candidate = none ∧
    taskCudaAny.image_candidate = some (candidateOf taskCudaAny (some ⟨10, 0⟩)) ∧
    taskCudaExact.image_candidate = some (candidateOf taskCudaExact (some ⟨9, 2⟩)) ∧
    taskCudaAtLeast.image_candidate = some (candidateOf taskCudaAtLeast (some ⟨8, 0⟩)) :=
  ⟨(image_candidate_from_required_fields taskNoDocker).1 rfl,
   (image_candidate_from_required_fields taskCudaAny).2.1 rfl rfl,
   (image_candidate_from_required_fields taskCudaExact).2.2.1 _ rfl rfl,
   (image_candidate_from_required_fields taskCudaAtLeast).2.2.2 _ rfl rfl⟩

/-- The part numbers produced by `chunkLoop` form the run
`part_nr, part_nr + 1, ...`. -/
theorem chunkLoop_part_numbers (buf_sz : Nat) (lines : List (List Nat))
    (buf : List Nat) (occ_sz part_nr : Nat) :
    (chunkLoop buf_sz lines buf occ_sz part_nr).map Prod.fst =
      List.range' part_nr (chunkLoop buf_sz lines buf occ_sz part_nr).length := by
  induction lines generalizing buf occ_sz part_nr with
  | nil =>
    by_cases h : occ_sz > 0 <;> simp [chunkLoop, h, List.range']
  | cons l ls ih =>
    by_cases h : occ_sz + l.length + 1 ≥ buf_sz
    · simp only [chunkLoop, if_pos h, List.map_cons, List.length_cons, List.range'_succ]
      exact congrArg _ (ih _ _ _)
    · simp only [chunkLoop, if_neg h]
      exact ih _ _ _

/-- C8: the buffered console streamer invokes its consumer with part
numbers forming the consecutive sequence 1, 2, 3, ... -/
theorem serialize_to_buffer_part_numbers (buf_sz : Nat) (lines : List (List Nat)) :
    (serialize_to_buffer buf_sz lines).map Prod.fst =
      List.range' 1 (serialize_to_buffer buf_sz lines).length :=
  chunkLoop_part_numbers buf_sz lines [] 0 1

/-- The little-endian length field decodes back to the encoded length. -/
theorem u32leDecode_u32le (n : Nat) (h : n ≤ 4294967295) :
    u32leDecode (u32le n) = n := by
  simp only [u32le, u32leDecode, List.getD_cons_zero, List.getD_cons_succ]
  omega

/-- A well-formed frame (32-byte signature matching the tag of the
length-prefixed payload) decodes back to its payload message. -/
theorem decodeFrame_ok {M : Type} (mac : List Nat → List Nat → List Nat)
    (deser : List Nat → Option M) (key sig payload : List Nat) (msg : M)
    (hsig : sig.length = 32)
    (hmac : mac key (u32le payload.length ++ payload) = sig)
    (hlen : payload.length ≤ 4294967295)
    (hdeser : deser payload = some msg) :
    decodeFrame mac deser key (sig ++ (u32le payload.length ++ payload)) =
      Except.ok msg := by
  have h4 : (u32le payload.length).length = 4 := rfl
  have hd32 : (sig ++ (u32le payload.length ++ payload)).drop 32 =
      u32le payload.length ++ payload := by
    rw [← hsig]
    exact List.drop_left _ _
  have ht32 : (sig ++ (u32le payload.length ++ payload)).take 32 = sig := by
    rw [← hsig]
    exact List.take_left _ _
  have hd36 : (sig ++ (u32le payload.length ++ payload)).drop 36 = payload := by
    rw [← List.append_assoc]
    have h36 : (sig ++ u32le payload.length).length = 36 := by
      simp [List.length_append, hsig, h4]
    rw [← h36]
    exact List.drop_left _ _
  have hlong : ¬ (sig ++ (u32le payload.length ++ payload)).length < 36 := by
    simp only [List.length_append, hsig, h4]
    omega
  have htk4 : (u32le payload.length ++ payload).take 4 = u32le payload.length := by
    rw [← h4]
    exact List.take_left _ _
  unfold decodeFrame
  rw [if_neg hlong, hd32, ht32, hmac, if_neg (by simp), htk4,
    u32leDecode_u32le _ hlen, hd36, if_neg (by simp), hdeser]

/-- C3: decoding an encoded frame returns the original message, for every
message, every key, every message-authentication primitive producing 32-byte
tags, and every serializer/deserializer pair that round-trips the message. -/
theorem decode_encode_roundtrip {M : Type}
    (mac : List Nat → List Nat → List Nat) (ser : M → List Nat)
    (deser : List Nat → Option M) (key : List Nat) (msg : M)
    (hmac : ∀ body, (mac key body).length = 32)
    (hser : deser (ser msg) = some msg)
    (hlen : (ser msg).length ≤ 4294967295) :
    (encodeFrame mac ser key msg).bind (decodeFrame mac deser key) =
      Except.ok msg := by
  have henc : encodeFrame mac ser key msg =
      Except.ok (mac key (u32le (ser msg).length ++ ser msg) ++
        (u32le (ser msg).length ++ ser msg)) := by
    simp [encodeFrame, hlen, hmac _]
  rw [henc]
  show decodeFrame mac deser key _ = _
  exact decodeFrame_ok mac deser key _ (ser msg) msg (hmac _) rfl hlen hser

/-- Witness for the round-trip theorem at a concrete message, key, tag
function and serializer. -/
theorem decode_encode_roundtrip_witness :
    (encodeFrame (fun _ _ => List.replicate 32 0) (fun n : Nat => List.replicate n 1)
        [] 3).bind
      (decodeFrame (fun _ _ => List.replicate 32 0) (fun l => some l.length) []) =
      Except.ok 3 :=
  decode_encode_roundtrip _ _ _ _ _ (fun _ => by decide) (by decide) (by decide)

/-- C4: every frame shorter than 36 bytes is rejected with the protocol
failure for every key and tag function; the check precedes all slicing of
the signature, length field and payload, and the embedding is a total
function, so no out-of-bounds access is reachable on this path. -/
theorem decode_short_frame_fails {M : Type} (mac : List Nat → List Nat → List Nat)
    (deser : List Nat → Option M) (key bin : List Nat) (h : bin.length < 36) :
    decodeFrame mac deser key bin =
      Except.error (PErr.fail ("API message protocol failure")) := by
  unfold decodeFrame
  rw [if_pos h]

/-- Witness for the short-frame theorem at a concrete 3-byte frame. -/
theorem decode_short_frame_fails_witness :
    decodeFrame (fun _ _ => List.replicate 32 0) (fun l => some l.length) [] [0, 1, 2] =
      Except.error (PErr.fail ("API message protocol failure")) :=
  decode_short_frame_fails _ _ _ _ (by decide)

/-- The watchdog arm on a closed record with a zero counter loads the
minimum interval. -/
theorem watchdogStep_closed_zero (s : Reconnect) (ho : s.open_flag = false)
    (hc : s.backoff_count = 0) :
    watchdogStep s =
      { s with
        backoff_delay_lo := s.min_backoff_delay_lo
        backoff_delay_hi := s.min_backoff_delay_hi
        backoff_count := s.backoff_count + 1 } := by
  simp [watchdogStep, ho, hc]

/-- The watchdog arm on a closed record with a nonzero counter doubles both
bounds, capped at the maxima. -/
theorem watchdogStep_closed_nonzero (s : Reconnect) (ho : s.open_flag = false)
    (hc : ¬ s.backoff_count = 0) :
    watchdogStep s =
      { s with
        backoff_delay_lo := min s.max_backoff_delay_lo (2 * s.backoff_delay_lo)
        backoff_delay_hi := min s.max_backoff_delay_hi (2 * s.backoff_delay_hi)
        backoff_count := s.backoff_count + 1 } := by
  simp [watchdogStep, ho, hc]

/-- Invariant of the watchdog iteration started from a closed state with a
zero attempt counter: the configuration fields and the closed flag are
preserved, the counter stays positive, and the delay bounds stay within
zero and the caps. -/
theorem watchdogIter_invariant (r : Reconnect)
    (hopen : r.open_flag = false) (hcnt : r.backoff_count = 0)
    (h1 : 0 ≤ r.min_backoff_delay_lo)
    (h2 : r.min_backoff_delay_lo ≤ r.max_backoff_delay_lo)
    (h3 : 0 ≤ r.min_backoff_delay_hi)
    (h4 : r.min_backoff_delay_hi ≤ r.max_backoff_delay_hi) :
    ∀ n, 1 ≤ n →
      (watchdogIter r n).open_flag = false ∧
      (watchdogIter r n).max_backoff_delay_lo = r.max_backoff_delay_lo ∧
      (watchdogIter r n).max_backoff_delay_hi = r.max_backoff_delay_hi ∧
      1 ≤ (watchdogIter r n).backoff_count ∧
      0 ≤ (watchdogIter r n).backoff_delay_lo ∧
      (watchdogIter r n).backoff_delay_lo ≤ r.max_backoff_delay_lo ∧
      0 ≤ (watchdogIter r n).backoff_delay_hi ∧
      (watchdogIter r n).backoff_delay_hi ≤ r.max_backoff_delay_hi := by
  intro n hn
  induction n with
  | zero => exact absurd hn (by omega)
  | succ k ih =>
    rcases Nat.eq_zero_or_pos k with hk | hk
    · subst hk
      have hiter : watchdogIter r 1 = watchdogStep r := rfl
      rw [hiter, watchdogStep_closed_zero r hopen hcnt]
      refine ⟨hopen, rfl, rfl, ?_, h1, h2, h3, h4⟩
      show 1 ≤ r.backoff_count + 1
      omega
    · obtain ⟨io, ilmax, ihmax, icnt, ilo0, ilomax, ihi0, ihimax⟩ := ih hk
      have hne : ¬ (watchdogIter r k).backoff_count = 0 := by omega
      have hiter : watchdogIter r (k + 1) = watchdogStep (watchdogIter r k) := rfl
      rw [hiter, watchdogStep_closed_nonzero (watchdogIter r k) io hne]
      refine ⟨io, ilmax, ihmax, ?_, ?_, ?_, ?_, ?_⟩
      · show 1 ≤ (watchdogIter r k).backoff_count + 1
        omega
      · show (0 : ℚ) ≤ min (watchdogIter r k).max_backoff_delay_lo
          (2 * (watchdogIter r k).backoff_delay_lo)
        rw [ilmax]
        exact le_min (le_trans h1 h2) (by linarith)
      · show min (watchdogIter r k).max_backoff_delay_lo
          (2 * (watchdogIter r k).backoff_delay_lo) ≤ r.max_backoff_delay_lo
        rw [ilmax]
        exact min_le_left _ _
      · show (0 : ℚ) ≤ min (watchdogIter r k).max_backoff_delay_hi
          (2 * (watchdogIter r k).backoff_delay_hi)
        rw [ihmax]
        exact le_min (le_trans h3 h4) (by linarith)
      · show min (watchdogIter r k).max_backoff_delay_hi
          (2 * (watchdogIter r k).backoff_delay_hi) ≤ r.max_backoff_delay_hi
        rw [ihmax]
        exact min_le_left _ _

/-- C5: from any closed reconnect state with a zero attempt counter (the
state right after a successful open and the subsequent hangup, or the
initial state), the backoff interval bounds computed by the watchdog are
monotonically non-decreasing across consecutive failures and never exceed
the capped maxima; the first failure uses the minimum interval, and a
successful open resets the counter so the next failure starts again from
the minimum interval. -/
theorem backoff_monotone_capped (r : Reconnect)
    (hopen : r.open_flag = false) (hcnt : r.backoff_count = 0)
    (h1 : 0 ≤ r.min_backoff_delay_lo)
    (h2 : r.min_backoff_delay_lo ≤ r.max_backoff_delay_lo)
    (h3 : 0 ≤ r.min_backoff_delay_hi)
    (h4 : r.min_backoff_delay_hi ≤ r.max_backoff_delay_hi) :
    ((watchdogIter r 1).backoff_delay_lo = r.min_backoff_delay_lo ∧
     (watchdogIter r 1).backoff_delay_hi = r.min_backoff_delay_hi) ∧
    (∀ n, 1 ≤ n →
      (watchdogIter r n).backoff_delay_lo ≤ (watchdogIter r (n + 1)).backoff_delay_lo ∧
      (watchdogIter r n).backoff_delay_hi ≤ (watchdogIter r (n + 1)).backoff_delay_hi) ∧
    (∀ n, 1 ≤ n →
      (watchdogIter r n).backoff_delay_lo ≤ r.max_backoff_delay_lo ∧
      (watchdogIter r n).backoff_delay_hi ≤ r.max_backoff_delay_hi) ∧
    (∀ r' : Reconnect,
      (watchdogStep (onWsHup (onOpen r'))).backoff_delay_lo = r'.min_backoff_delay_lo ∧
      (watchdogStep (onWsHup (onOpen r'))).backoff_delay_hi = r'.min_backoff_delay_hi) := by
  refine ⟨?_, ?_, ?_, ?_⟩
  · have hiter : watchdogIter r 1 = watchdogStep r := rfl
    rw [hiter, watchdogStep_closed_zero r hopen hcnt]
    exact ⟨rfl, rfl⟩
  · intro n hn
    obtain ⟨io, ilmax, ihmax, icnt, ilo0, ilomax, ihi0, ihimax⟩ :=
      watchdogIter_invariant r hopen hcnt h1 h2 h3 h4 n hn
    have hne : ¬ (watchdogIter r n).backoff_count = 0 := by omega
    have hiter : watchdogIter r (n + 1) = watchdogStep (watchdogIter r n) := rfl
    rw [hiter, watchdogStep_closed_nonzero (watchdogIter r n) io hne]
    constructor
    · show (watchdogIter r n).backoff_delay_lo ≤
        min (watchdogIter r n).max_backoff_delay_lo
          (2 * (watchdogIter r n).backoff_delay_lo)
      rw [ilmax]
      exact le_min ilomax (by linarith)
    · show (watchdogIter r n).backoff_delay_hi ≤
        min (watchdogIter r n).max_backoff_delay_hi
          (2 * (watchdogIter r n).backoff_delay_hi)
      rw [ihmax]
      exact le_min ihimax (by linarith)
  · intro n hn
    obtain ⟨io, ilmax, ihmax, icnt, ilo0, ilomax, ihi0, ihimax⟩ :=
      watchdogIter_invariant r hopen hcnt h1 h2 h3 h4 n hn
    exact ⟨ilomax, ihimax⟩
  · intro r'
    have ho : (onWsHup (onOpen r')).open_flag = false := rfl
    have hc : (onWsHup (onOpen r')).backoff_count = 0 := rfl
    rw [watchdogStep_closed_zero _ ho hc]
    exact ⟨rfl, rfl⟩

/-- Witness: the backoff theorem applied to the concrete record built in
`Context::new`. -/
theorem backoff_monotone_capped_witness :
    (watchdogIter initReconnect 1).backoff_delay_lo =
      initReconnect.min_backoff_delay_lo ∧
    (watchdogIter initReconnect 1).backoff_delay_hi =
      initReconnect.min_backoff_delay_hi :=
  (backoff_monotone_capped initReconnect rfl rfl (by norm_num [initReconnect])
    (by norm_num [initReconnect]) (by norm_num [initReconnect])
    (by norm_num [initReconnect])).1

/-- Scanning an appended list for the first match scans the left part
first. -/
theorem find?_append_scan {α : Type} (p : α → Bool) (l1 l2 : List α) :
    (l1 ++ l2).find? p = ((l1.find? p).or (l2.find? p)) := by
  induction l1 with
  | nil => simp [Option.or]
  | cons a t ih =>
    by_cases h : p a
    · simp [List.find?, h, Option.or]
    · simp [List.find?, h, ih]

/-- C7: after any successful lookup of an ImageSpec, looking the same spec
up again is a manifest hit: no build is attempted, the manifest is left
unchanged, and both lookups return a handle with the same hash digest. -/
theorem lookup_docker_image_idempotent (hash : ImageSpec → String)
    (b1 d1 b2 d2 : Bool) (m m1 : List ImageSpec) (spec : ImageSpec)
    (img : DockerImage) (built : Bool)
    (h : lookup_docker_image hash b1 d1 m spec = (Except.ok img, m1, built)) :
    lookup_docker_image hash b2 d2 m1 spec =
      (Except.ok { imagespec := spec, hash_digest := hash spec }, m1, false) ∧
    img.hash_digest = hash spec := by
  unfold lookup_docker_image at h ⊢
  cases hf : m.find? (fun image => image == spec) with
  | some image =>
    rw [hf] at h
    have him : image = spec := by
      have hp := List.find?_some hf
      exact eq_of_beq hp
    subst him
    simp only [Prod.mk.injEq, Except.ok.injEq] at h
    obtain ⟨h1, h2, h3⟩ := h
    subst h2
    rw [hf]
    refine ⟨rfl, ?_⟩
    rw [← h1]
  | none =>
    rw [hf] at h
    cases b1 with
    | false => simp at h
    | true =>
      cases d1 with
      | false => simp at h
      | true =>
        simp only [if_true, Prod.mk.injEq, Except.ok.injEq] at h
        obtain ⟨h1, h2, h3⟩ := h
        subst h2
        have hfind : (m ++ [spec]).find? (fun image => image == spec) = some spec := by
          rw [find?_append_scan, hf]
          simp [List.find?, Option.or]
        rw [hfind]
        refine ⟨rfl, ?_⟩
        rw [← h1]

/-- The line fold over an appended list runs the first part first, aborting
on its error. -/
theorem procLines_append (env : String → String → McEff) (st : PState)
    (l1 l2 : List String) :
    procLines env st (l1 ++ l2) =
      match procLines env st l1 with
      | Except.error e => Except.error e
      | Except.ok st' => procLines env st' l2 := by
  induction l1 generalizing st with
  | nil => rfl
  | cons a t ih =>
    show (match procLine env st a with
          | Except.error e => Except.error e
          | Except.ok st' => procLines env st' (t ++ l2)) = _
    have hR : procLines env st (a :: t) =
        match procLine env st a with
        | Except.error e => Except.error e
        | Except.ok st' => procLines env st' t := rfl
    rw [hR]
    cases procLine env st a with
    | error e => rfl
    | ok st' => exact ih st'

/-- A shell line with no open builder is a syntax error. -/
theorem procLine_shell_no_builder (env : String → String → McEff)
    (st : PState) (l : String) (hb : st.builder = none)
    (hs : isShellLine l = true) :
    procLine env st l = Except.error (PErr.fail ("gup.py syntax error")) := by
  unfold isShellLine at hs
  unfold procLine
  cases hm : splitn2 ("#-guppy:") l with
  | nil => simp [procShell, hb]
  | cons x xs =>
    cases xs with
    | nil => simp [procShell, hb]
    | cons y ys =>
      cases ys with
      | nil =>
        rw [hm] at hs
        simp only [Bool.not_eq_true'] at hs
        have hx : ¬ x = "" := by
          intro h
          rw [h] at hs
          simp at hs
        simp [hx, procShell, hb]
      | cons z zs => simp [procShell, hb]

/-- A line recognized as a `v0.task` directive with first token `tok` is
processed by `procTaskDirective` on that token. -/
theorem procLine_taskTok (env : String → String → McEff) (st : PState)
    (l tok : String) (ht : taskTok l = some tok) :
    ∃ args toks, splitWS args = tok :: toks ∧
      procLine env st l = procTaskDirective st args tok toks := by
  unfold taskTok at ht
  cases hm : splitn2 ("#-guppy:") l with
  | nil => rw [hm] at ht; simp at ht
  | cons x xs =>
    cases xs with
    | nil => rw [hm] at ht; simp at ht
    | cons y ys =>
      cases ys with
      | cons z zs => rw [hm] at ht; simp at ht
      | nil =>
        rw [hm] at ht
        have ht2 : (if x = "" then
            (match splitn2 (":") y with
              | [d, args] => if d = "v0.task" then (splitWS args).head? else none
              | _ => none)
            else none) = some tok := ht
        by_cases hx : x = ""
        · rw [if_pos hx] at ht2
          cases hd : splitn2 (":") y with
          | nil => rw [hd] at ht2; simp at ht2
          | cons d ds =>
            cases ds with
            | nil => rw [hd] at ht2; simp at ht2
            | cons args rest2 =>
              cases rest2 with
              | cons w ws => rw [hd] at ht2; simp at ht2
              | nil =>
                rw [hd] at ht2
                have ht3 : (if d = "v0.task" then (splitWS args).head? else none) =
                    some tok := ht2
                by_cases hdv : d = "v0.task"
                · rw [if_pos hdv] at ht3
                  cases hsw : splitWS args with
                  | nil => rw [hsw] at ht3; simp at ht3
                  | cons tok0 toks =>
                    rw [hsw] at ht3
                    simp only [List.head?_cons, Option.some.injEq] at ht3
                    subst ht3
                    subst hx
                    subst hdv
                    refine ⟨args, toks, hsw, ?_⟩
                    have e1 : procLine env st l = procDirective env st y := by
                      unfold procLine
                      rw [hm]
                      exact rfl
                    have e2 : procDirective env st y = procTask st args := by
                      unfold procDirective
                      rw [hd]
                      exact rfl
                    have e3 : procTask st args = procTaskDirective st args tok0 toks := by
                      unfold procTask
                      rw [hsw]
                    rw [e1, e2, e3]
                · rw [if_neg hdv] at ht3
                  simp at ht3
        · rw [if_neg hx] at ht2
          simp at ht2

/-- Every `end` or modifier `v0.task` directive is a syntax error when no
builder is open. -/
theorem procTaskDirective_no_builder (st : PState) (args tok : String)
    (toks : List String) (hb : st.builder = none)
    (hmem : tok = "end" ∨ tok ∈ modifierToks) :
    procTaskDirective st args tok toks =
      Except.error (PErr.fail ("gup.py syntax error")) := by
  obtain ⟨b, ts⟩ := st
  simp only at hb
  subst hb
  simp only [modifierToks, List.mem_cons, List.mem_singleton,
    List.not_mem_nil, or_false] at hmem
  rcases hmem with rfl | rfl | rfl | rfl | rfl | rfl | rfl | rfl | rfl <;> rfl

/-- A `begin` directive is a syntax error when a builder is already open. -/
theorem procTaskDirective_begin_open (st : PState) (args : String)
    (toks : List String) (b : TaskSpecBuilder) (hb : st.builder = some b) :
    procTaskDirective st args ("begin") toks =
      Except.error (PErr.fail ("gup.py syntax error")) := by
  obtain ⟨bb, ts⟩ := st
  simp only at hb
  subst hb
  rfl

/-- A line-level syntax error after an accepted prefix aborts the whole
parse. -/
theorem taskspecs_line_error (env : String → String → McEff)
    (pre rest : List String) (l : String) (st : PState)
    (hpre : procLines env { builder := none, tasks := [] } pre = Except.ok st)
    (hline : procLine env st l = Except.error (PErr.fail ("gup.py syntax error"))) :
    taskspecs env (pre ++ l :: rest) =
      Except.error (PErr.fail ("gup.py syntax error")) := by
  have h2 : procLines env { builder := none, tasks := [] } (pre ++ l :: rest) =
      procLines env st (l :: rest) := by
    rw [procLines_append env _ pre (l :: rest), hpre]
  have h3 : procLines env st (l :: rest) =
      Except.error (PErr.fail ("gup.py syntax error")) := by
    show (match procLine env st l with
          | Except.error e => Except.error e
          | Except.ok st' => procLines env st' rest) = _
    rw [hline]
  unfold taskspecs
  rw [h2, h3]

/-- C6: the taskspec parse is all-or-nothing over its error conditions.
After any accepted prefix: a shell line, an `end` directive, or a modifier
directive while no builder is open fails the whole parse with a syntax
error; a `begin` directive while a builder is open fails the whole parse;
and a builder still open at end of stream fails the whole parse.  In each
case the result is an `Except.error`, which carries no partial task
list. -/
theorem taskspecs_all_or_nothing (env : String → String → McEff)
    (pre rest : List String) (l : String) (st : PState)
    (hpre : procLines env { builder := none, tasks := [] } pre = Except.ok st) :
    (st.builder = none →
      (isShellLine l = true ∨ taskTok l = some ("end") ∨
        (∃ t, t ∈ modifierToks ∧ taskTok l = some t)) →
      taskspecs env (pre ++ l :: rest) =
        Except.error (PErr.fail ("gup.py syntax error"))) ∧
    (∀ b, st.builder = some b → taskTok l = some ("begin") →
      taskspecs env (pre ++ l :: rest) =
        Except.error (PErr.fail ("gup.py syntax error"))) ∧
    (st.builder ≠ none →
      taskspecs env pre = Except.error (PErr.fail ("gup.py syntax error"))) := by
  refine ⟨?_, ?_, ?_⟩
  · intro hb hcase
    have hline : procLine env st l =
        Except.error (PErr.fail ("gup.py syntax error")) := by
      rcases hcase with hsh | hend | ⟨t, htm, htk⟩
      · exact procLine_shell_no_builder env st l hb hsh
      · obtain ⟨args, toks, hsw, heq⟩ := procLine_taskTok env st l ("end") hend
        rw [heq]
        exact procTaskDirective_no_builder st args ("end") toks hb (Or.inl rfl)
      · obtain ⟨args, toks, hsw, heq⟩ := procLine_taskTok env st l t htk
        rw [heq]
        exact procTaskDirective_no_builder st args t toks hb (Or.inr htm)
    exact taskspecs_line_error env pre rest l st hpre hline
  · intro b hb hbeg
    have hline : procLine env st l =
        Except.error (PErr.fail ("gup.py syntax error")) := by
      obtain ⟨args, toks, hsw, heq⟩ := procLine_taskTok env st l ("begin") hbeg
      rw [heq]
      exact procTaskDirective_begin_open st args toks b hb
    exact taskspecs_line_error env pre rest l st hpre hline
  · intro hb
    unfold taskspecs
    rw [hpre]
    show (if st.builder.isSome = true then
        Except.error (PErr.fail ("gup.py syntax error"))
      else Except.ok st.tasks) = _
    cases hbb : st.builder with
    | none => exact absurd hbb hb
    | some b => rfl

/-- Witness: the all-or-nothing theorem applied to concrete streams hitting
each of the error conditions. -/
theorem taskspecs_all_or_nothing_witness :
    taskspecs (fun _ _ => McEff.ok) ([] ++ ("echo hello") :: []) =
      Except.error (PErr.fail ("gup.py syntax error")) ∧
    taskspecs (fun _ _ => McEff.ok) ([] ++ ("#-guppy:v0.task:end") :: []) =
      Except.error (PErr.fail ("gup.py syntax error")) ∧
    taskspecs (fun _ _ => McEff.ok) ([] ++ ("#-guppy:v0.task:name X") :: []) =
      Except.error (PErr.fail ("gup.py syntax error")) ∧
    taskspecs (fun _ _ => McEff.ok)
        (["#-guppy:v0.task:begin"] ++ ("#-guppy:v0.task:begin") :: []) =
      Except.error (PErr.fail ("gup.py syntax error")) ∧
    taskspecs (fun _ _ => McEff.ok) ["#-guppy:v0.task:begin"] =
      Except.error (PErr.fail ("gup.py syntax error")) :=
  ⟨(taskspecs_all_or_nothing (fun _ _ => McEff.ok) [] [] ("echo hello")
      { builder := none, tasks := [] } rfl).1 rfl (Or.inl (by decide)),
   (taskspecs_all_or_nothing (fun _ _ => McEff.ok) [] [] ("#-guppy:v0.task:end")
      { builder := none, tasks := [] } rfl).1 rfl (Or.inr (Or.inl (by decide))),
   (taskspecs_all_or_nothing (fun _ _ => McEff.ok) [] [] ("#-guppy:v0.task:name X")
      { builder := none, tasks := [] } rfl).1 rfl
     (Or.inr (Or.inr ⟨"name", by decide, by decide⟩)),
   (taskspecs_all_or_nothing (fun _ _ => McEff.ok) ["#-guppy:v0.task:begin"] []
      ("#-guppy:v0.task:begin") { builder := some {}, tasks := [] } rfl).2.1
     {} rfl (by decide),
   (taskspecs_all_or_nothing (fun _ _ => McEff.ok) ["#-guppy:v0.task:begin"] []
      ("x") { builder := some {}, tasks := [] } rfl).2.2 (by decide)⟩

/-- Witness: the idempotence theorem applied after a concrete successful
first lookup (miss, build and dump both succeeding). -/
theorem lookup_docker_image_idempotent_witness :
    lookup_docker_image (fun _ => "h") true true [ImageSpec.builtin_default]
        ImageSpec.builtin_default =
      (Except.ok { imagespec := ImageSpec.builtin_default, hash_digest := "h" },
        [ImageSpec.builtin_default], false) ∧
    ({ imagespec := ImageSpec.builtin_default, hash_digest := "h" } : DockerImage).hash_digest =
      "h" :=
  lookup_docker_image_idempotent (fun _ => "h") true true true true []
    [ImageSpec.builtin_default] ImageSpec.builtin_default
    { imagespec := ImageSpec.builtin_default, hash_digest := "h" } true rfl

end Guppy
